import Mathlib

/-!
# Verification of the TimeTunes focus-timer core

Shallow embedding of the core state machines of the `time-tunes-app`
repository: the Pomodoro timer state machine (`PomodoroTimer` component),
the streak tracker (`useStreak` hook), the media sync controller
(`YouTubeBackground` component) and the theme switcher (`ThemeContext`).

JavaScript numbers are modelled as `Int` (all values involved are small
integers, far from any floating-point rounding), calendar dates produced by
`Date.toDateString()` are modelled as day indices (an `Int`; `toDateString`
is injective on calendar days, and "yesterday" is `today - 1`), and React
`useState` functional updates are modelled as explicit state passing.
-/

namespace TimeTunes

/-! ## Timer state machine

From `src/components/PomodoroTimer.tsx` (two revisions of this component are
present in the repository; their `TimerState` shape, `toggleTimer`,
`resetTimer` and `handleVolumeToggle` coincide, their tick callbacks differ
only in the `isActive` value chosen on session completion).
-/

/-- The `TimerState` interface of `PomodoroTimer.tsx`:
minutes/seconds countdown, running flag, session kind
(`isSession = true` is a work session) and configured lengths in minutes. -/
structure TimerState where
  minutes : Int
  seconds : Int
  isActive : Bool
  isSession : Bool
  sessionLength : Int
  breakLength : Int
deriving Repr, DecidableEq

/-- Initial `useState` value of the timer: 25:00, paused, work session,
25-minute work sessions and 5-minute breaks. -/
def initialTimer : TimerState :=
  { minutes := 25
    seconds := 0
    isActive := false
    isSession := true
    sessionLength := 25
    breakLength := 5 }

/-- The `setTimer(prev => ...)` updater run once per second by the interval
effect of the `PomodoroTimer` revision that does NOT auto-start the next
session (`src/unnamed/part_004`, lines 135-183): count seconds down, borrow
from minutes at `seconds = 0`, and on completion (both zero) flip the
session kind, load the new session's length and set `isActive := false`
("Do not auto-start next session; let user start manually"). -/
def tick (prev : TimerState) : TimerState :=
  if prev.seconds > 0 then
    { prev with seconds := prev.seconds - 1 }
  else if prev.minutes > 0 then
    { prev with minutes := prev.minutes - 1, seconds := 59 }
  else
    let newIsSession := !prev.isSession
    let newMinutes := if newIsSession then prev.sessionLength else prev.breakLength
    { prev with
      minutes := newMinutes
      seconds := 0
      isSession := newIsSession
      isActive := false }

/-- The tick updater of the other `PomodoroTimer` revision
(`src/components/PomodoroTimer.tsx`, lines 118-166): identical countdown,
but on completion it keeps `isActive := true`
("Continue running for next session"). -/
def tickAuto (prev : TimerState) : TimerState :=
  if prev.seconds > 0 then
    { prev with seconds := prev.seconds - 1 }
  else if prev.minutes > 0 then
    { prev with minutes := prev.minutes - 1, seconds := 59 }
  else
    let newIsSession := !prev.isSession
    let newMinutes := if newIsSession then prev.sessionLength else prev.breakLength
    { prev with
      minutes := newMinutes
      seconds := 0
      isSession := newIsSession
      isActive := true }

/-- `toggleTimer`: `setTimer(prev => ({ ...prev, isActive: !prev.isActive }))`.
The remaining UI statements of the handler touch only presentation state. -/
def toggleTimer (prev : TimerState) : TimerState :=
  { prev with isActive := !prev.isActive }

/-- `resetTimer`: restore the current session kind's configured length,
zero the seconds and stop the timer. -/
def resetTimer (prev : TimerState) : TimerState :=
  { prev with
    minutes := if prev.isSession then prev.sessionLength else prev.breakLength
    seconds := 0
    isActive := false }

/-- `handleVolumeToggle`: positive volume is muted to 0, otherwise the
volume is restored to the fixed value 30. -/
def handleVolumeToggle (volume : Int) : Int :=
  if volume > 0 then 0 else 30

/-- The spec's `remainingSeconds` view of the stored minutes+seconds pair. -/
def remainingSeconds (s : TimerState) : Int :=
  s.minutes * 60 + s.seconds

/-- The spec's `workDurationSeconds` (configured work length in seconds). -/
def workDurationSeconds (s : TimerState) : Int :=
  s.sessionLength * 60

/-- The spec's `breakDurationSeconds` (configured break length in seconds). -/
def breakDurationSeconds (s : TimerState) : Int :=
  s.breakLength * 60

/-- Numeric sanity invariant on timer states: the stored pair and the
configured lengths are non-negative. Holds of `initialTimer` and is
preserved by every operation. -/
def TimerInv (s : TimerState) : Prop :=
  0 ≤ s.minutes ∧ 0 ≤ s.seconds ∧ 0 ≤ s.sessionLength ∧ 0 ≤ s.breakLength

instance (s : TimerState) : Decidable (TimerInv s) := by
  unfold TimerInv
  infer_instance

/-! ## Streak tracker

From the `useStreak` hook (`src/unnamed/part_008`, lines 366-529).
`Date.toDateString()` values are modelled as day indices: `today` is an
arbitrary `Int`, and the `yesterday` computed by
`setDate(getDate() - 1)` is `today - 1`.

React's `useState` is modelled by a pair of records: `stored` is the
authoritative state after every queued functional update has been applied
(it is what the save effect writes to `localStorage` once the update
flushes), and `snapshot` is the `streak` value captured by the closures of
the current render. A re-render copies `stored` into `snapshot`.
-/

/-- The `StreakData` interface: current streak `count`, `lastUpdate` date
(day index of the `toDateString` value) and lifetime `totalSessions`. -/
structure StreakData where
  count : Int
  lastUpdate : Int
  totalSessions : Int
deriving Repr, DecidableEq

/-- Hook state: `stored` is the up-to-date React state (applied functional
updates, persisted by the save effect); `snapshot` is the render-captured
`streak` variable closed over by `incrementStreak`. -/
structure HookState where
  stored : StreakData
  snapshot : StreakData
deriving Repr, DecidableEq

/-- A React re-render: the closures of the new render capture the current
state, so `snapshot` catches up with `stored`. -/
def rerender (h : HookState) : HookState :=
  { h with snapshot := h.stored }

/-- `incrementStreak`: queues
`setStreak(prev => ({count: prev.count + 1, lastUpdate: today,
totalSessions: prev.totalSessions + 1}))` against the actual state and
returns `streak.count + 1` computed from the render-captured `streak`
("Note: This uses current state + 1, not the updated state").
The result pairs the returned number with the hook state after the
functional update is applied. -/
def incrementStreak (today : Int) (h : HookState) : Int × HookState :=
  (h.snapshot.count + 1,
   { h with
     stored :=
       { count := h.stored.count + 1
         lastUpdate := today
         totalSessions := h.stored.totalSessions + 1 } })

/-- `resetStreak`: `count` back to zero, date to today, `totalSessions`
preserved. -/
def resetStreak (today : Int) (h : HookState) : HookState :=
  { h with
    stored :=
      { count := 0
        lastUpdate := today
        totalSessions := h.stored.totalSessions } }

/-- The daily-gap adjustment applied by the load effect to a successfully
parsed record: a record from today is used as-is; a record from yesterday
keeps its count and advances the date; anything else resets the count to 0
and preserves `totalSessions`. -/
def loadAdjust (today : Int) (data : StreakData) : StreakData :=
  if data.lastUpdate = today then
    data
  else if data.lastUpdate = today - 1 then
    { data with lastUpdate := today }
  else
    { count := 0
      lastUpdate := today
      totalSessions := data.totalSessions }

/-- The fresh zero record used both as the initial hook state and as the
fallback when parsing the stored value fails. -/
def freshStreak (today : Int) : StreakData :=
  { count := 0, lastUpdate := today, totalSessions := 0 }

/-- What `localStorage.getItem('pomodoro-streak')` plus `JSON.parse` can
yield: no stored value, a value on which `JSON.parse` throws, or a parsed
record. -/
inductive StoredStreak where
  | missing
  | malformed
  | record (data : StreakData)
deriving Repr, DecidableEq

/-- The mount-time load effect: result record paired with whether the
anomaly branch (`console.error('Error parsing streak data', ...)`) ran.
A missing key keeps the initial state (a fresh zero record); a parse
failure is caught, logged and replaced by a fresh zero record; a parsed
record goes through the daily-gap adjustment. The function is total: no
input makes it throw. -/
def loadStreak (today : Int) (saved : StoredStreak) : StreakData × Bool :=
  match saved with
  | .missing => (freshStreak today, false)
  | .malformed => (freshStreak today, true)
  | .record data => (loadAdjust today data, false)

/-! ## Media sync controller

From `YouTubeBackground.tsx` (the revision carrying `handleYouTubeEvents`
and the 500 ms `playbackInterval`). Time is a discrete `Nat` clock in
seconds; the one-shot `setTimeout(..., 3000)` stored in
`bufferTimeout.current` is modelled as an absolute deadline `now + 3`, and
"the timeout fires" is modelled by `advanceTo`, which performs the pending
callback (`setIframeKey(k => k + 1); bufferTimeout.current = null`) as soon
as the clock passes the deadline. `iframeKey` counts forced reloads.
-/

/-- One-way commands posted to the embedded player via `postMessage`. -/
inductive Command where
  | playVideo
  | mute
  | unMute
  | setVolume (n : Int)
deriving Repr, DecidableEq

/-- The YouTube player state codes delivered by `onStateChange`. -/
inductive PlayerCode where
  | unstarted
  | ended
  | playing
  | paused
  | buffering
deriving Repr, DecidableEq

/-- The numeric `data.info` value of each state code:
`-1` unstarted, `0` ended, `1` playing, `2` paused, `3` buffering. -/
def codeInfo : PlayerCode → Int
  | .unstarted => -1
  | .ended => 0
  | .playing => 1
  | .paused => 2
  | .buffering => 3

/-- The mutable refs of the component that the event handler touches:
`lastPlayerState`, `isPlayingRef`, the pending stall timer
(`bufferTimeout.current`, as an absolute deadline) and `iframeKey`
(whose increments are the forced reloads). -/
structure MediaState where
  lastPlayerState : Option Int
  isPlaying : Bool
  stallDeadline : Option Nat
  iframeKey : Nat
deriving Repr, DecidableEq

/-- Media refs as initialised on mount: no state seen, not playing, no
stall timer pending, `iframeKey = 0`. -/
def initialMedia : MediaState :=
  { lastPlayerState := none, isPlaying := false
    stallDeadline := none, iframeKey := 0 }

/-- Run the pending stall-timer callback if the clock `t` has reached its
deadline: `setIframeKey(k => k + 1); bufferTimeout.current = null`. -/
def advanceTo (t : Nat) (s : MediaState) : MediaState :=
  match s.stallDeadline with
  | some d => if d ≤ t then { s with stallDeadline := none, iframeKey := s.iframeKey + 1 } else s
  | none => s

/-- The `onStateChange` branch of `handleYouTubeEvents`, receiving
`data.info` at clock time `now`: record the state, and
(a) if the code is buffering or unstarted and no stall timer is pending,
arm a one-shot 3-second timer (`setTimeout(..., 3000)`);
(b) if the code is playing and a stall timer is pending, cancel it
(`clearTimeout`). -/
def handleStateChange (now : Nat) (c : PlayerCode) (s : MediaState) : MediaState :=
  let info := codeInfo c
  let s1 : MediaState := { s with lastPlayerState := some info, isPlaying := info = 1 }
  if (info = 3 ∨ info = -1) ∧ s1.stallDeadline = none then
    { s1 with stallDeadline := some (now + 3) }
  else if info = 1 ∧ s1.stallDeadline ≠ none then
    { s1 with stallDeadline := none }
  else
    s1

/-- The commands the same handler posts on a state change: any non-playing
state triggers an immediate `playVideo` re-issue (self-healing). -/
def stateChangeCommands (c : PlayerCode) : List Command :=
  if codeInfo c = 1 then [] else [Command.playVideo]

/-- Process a timestamped sequence of `onStateChange` events and then let
the clock run to `endTime`: before each event (and at the end) the pending
stall timer fires if its deadline has passed. -/
def runTrace (s : MediaState) (evs : List (Nat × PlayerCode)) (endTime : Nat) : MediaState :=
  match evs with
  | [] => advanceTo endTime s
  | (t, c) :: rest => runTrace (handleStateChange t c (advanceTo t s)) rest endTime

/-- One iteration of the 500 ms `playbackInterval` loop, in the order the
commands are posted: `volume === 0` posts only `mute`; otherwise an
`unMute` is posted first whenever the previously known volume
(`prevVolumeRef.current`) was 0, followed by `setVolume(volume)`. -/
def playbackTick (volume : Int) (prevVolume : Int) : List Command :=
  if volume = 0 then
    [Command.mute]
  else
    (if prevVolume = 0 then [Command.unMute] else []) ++ [Command.setVolume volume]

/-! ## Theme switching

From `ThemeContext.tsx` (its `themes` table and `setTheme`) and the
`AppContent` theme-sync effect (`src/unnamed/part_006`, lines 86-91),
which maps the selected background video to a theme id with
`videos.find(v => v.id === selectedVideo)` and
`setTheme(video?.theme || 'emerald')`.
-/

/-- The `Theme` interface of `ThemeContext.tsx`. -/
structure Theme where
  id : String
  primary : String
  secondary : String
  accent : String
  gradient : String
  color : String
  glow : String
  isPremium : Bool
deriving Repr, DecidableEq

/-- Theme `red-orange`, the first entry of the `themes` table (and hence
the initial `currentTheme`). -/
def redOrangeTheme : Theme :=
  { id := "red-orange"
    primary := "bg-red-500"
    secondary := "bg-red-400"
    accent := "border-red-400/40"
    gradient := "from-red-500 via-orange-500 to-yellow-500"
    color := "#ef4444"
    glow := "drop-shadow-[0_0_20px_rgba(239,68,68,0.8)]"
    isPremium := false }

/-- Theme `emerald`. -/
def emeraldTheme : Theme :=
  { id := "emerald"
    primary := "bg-emerald-500"
    secondary := "bg-emerald-400"
    accent := "border-emerald-400/40"
    gradient := "from-emerald-400 via-emerald-500 to-teal-600"
    color := "#10b981"
    glow := "drop-shadow-[0_0_20px_rgba(16,185,129,0.8)]"
    isPremium := false }

/-- Theme `blue`. -/
def blueTheme : Theme :=
  { id := "blue"
    primary := "bg-blue-500"
    secondary := "bg-blue-400"
    accent := "border-blue-400/40"
    gradient := "from-blue-400 via-blue-500 to-indigo-600"
    color := "#3b82f6"
    glow := "drop-shadow-[0_0_20px_rgba(59,130,246,0.8)]"
    isPremium := false }

/-- Premium theme `purple`. -/
def purpleTheme : Theme :=
  { id := "purple"
    primary := "bg-purple-500"
    secondary := "bg-purple-400"
    accent := "border-purple-400/40"
    gradient := "from-purple-400 via-purple-500 to-pink-600"
    color := "#8b5cf6"
    glow := "drop-shadow-[0_0_20px_rgba(139,92,246,0.8)]"
    isPremium := true }

/-- Premium theme `rose`. -/
def roseTheme : Theme :=
  { id := "rose"
    primary := "bg-rose-500"
    secondary := "bg-rose-400"
    accent := "border-rose-400/40"
    gradient := "from-rose-400 via-rose-500 to-pink-600"
    color := "#f43f5e"
    glow := "drop-shadow-[0_0_20px_rgba(244,63,94,0.8)]"
    isPremium := true }

/-- The `themes` table of `ThemeContext.tsx`: three free themes followed by
two premium ones. -/
def themes : List Theme :=
  [redOrangeTheme, emeraldTheme, blueTheme, purpleTheme, roseTheme]

/-- `setTheme(themeId)` acting on the `currentTheme` state: look the id up
with `themes.find(t => t.id === themeId)`; a hit replaces the current
theme, a miss leaves the state untouched (the `else` branch only calls
`console.warn`). -/
def setTheme (themeId : String) (currentTheme : Theme) : Theme :=
  match themes.find? (fun t => t.id = themeId) with
  | some theme => theme
  | none => currentTheme

/-- An entry of the `videos` array exported by `VideoSelector`. -/
structure Video where
  id : String
  title : String
  theme : String
deriving Repr, DecidableEq

/-- The theme id the `AppContent` theme-sync effect passes to `setTheme`
for a selected video id: `video?.theme || 'emerald'`, i.e. the matched
video's theme when the lookup hits and its theme string is truthy
(non-empty), and the fallback id `'emerald'` otherwise. Parameterised by
the `videos` table so that both revisions of the array are covered. -/
def themeForVideo (videos : List Video) (selectedVideo : String) : String :=
  match videos.find? (fun v => v.id = selectedVideo) with
  | some v => if v.theme = "" then "emerald" else v.theme
  | none => "emerald"

/-! ## Helper lemmas -/

/-- A single tick preserves the numeric invariant (non-auto-continue
revision). -/
lemma tick_inv {s : TimerState} (h : TimerInv s) : TimerInv (tick s) := by
  obtain ⟨h1, h2, h3, h4⟩ := h
  unfold tick TimerInv
  split_ifs with hs hm
  · exact ⟨h1, by show (0:Int) ≤ s.seconds - 1; omega, h3, h4⟩
  · exact ⟨by show (0:Int) ≤ s.minutes - 1; omega, by show (0:Int) ≤ 59; norm_num, h3, h4⟩
  · refine ⟨?_, by show (0:Int) ≤ 0; exact le_refl 0, h3, h4⟩
    show (0:Int) ≤ if !s.isSession then s.sessionLength else s.breakLength
    split_ifs <;> assumption

/-- A single tick preserves the numeric invariant (auto-continue
revision). -/
lemma tickAuto_inv {s : TimerState} (h : TimerInv s) : TimerInv (tickAuto s) := by
  obtain ⟨h1, h2, h3, h4⟩ := h
  unfold tickAuto TimerInv
  split_ifs with hs hm
  · exact ⟨h1, by show (0:Int) ≤ s.seconds - 1; omega, h3, h4⟩
  · exact ⟨by show (0:Int) ≤ s.minutes - 1; omega, by show (0:Int) ≤ 59; norm_num, h3, h4⟩
  · refine ⟨?_, by show (0:Int) ≤ 0; exact le_refl 0, h3, h4⟩
    show (0:Int) ≤ if !s.isSession then s.sessionLength else s.breakLength
    split_ifs <;> assumption

/-- Iterating `tick` preserves the numeric invariant. -/
lemma tick_iterate_inv {s : TimerState} (n : Nat) (h : TimerInv s) :
    TimerInv (tick^[n] s) := by
  induction n generalizing s with
  | zero => exact h
  | succ n ih =>
      rw [Function.iterate_succ_apply]
      exact ih (tick_inv h)

/-- Iterating `tickAuto` preserves the numeric invariant. -/
lemma tickAuto_iterate_inv {s : TimerState} (n : Nat) (h : TimerInv s) :
    TimerInv (tickAuto^[n] s) := by
  induction n generalizing s with
  | zero => exact h
  | succ n ih =>
      rw [Function.iterate_succ_apply]
      exact ih (tickAuto_inv h)

/-- Under the invariant, the derived `remainingSeconds` is non-negative. -/
lemma remainingSeconds_nonneg {s : TimerState} (h : TimerInv s) :
    0 ≤ remainingSeconds s := by
  obtain ⟨h1, h2, _, _⟩ := h
  unfold remainingSeconds
  omega

/-- `tick` changes the session kind only at 0:00. -/
lemma tick_flip_only_at_zero {s : TimerState} (h : TimerInv s)
    (hflip : (tick s).isSession ≠ s.isSession) :
    s.minutes = 0 ∧ s.seconds = 0 := by
  obtain ⟨h1, h2, _, _⟩ := h
  unfold tick at hflip
  split_ifs at hflip with hs hm
  · simp at hflip
  · simp at hflip
  · omega

/-- `tickAuto` changes the session kind only at 0:00. -/
lemma tickAuto_flip_only_at_zero {s : TimerState} (h : TimerInv s)
    (hflip : (tickAuto s).isSession ≠ s.isSession) :
    s.minutes = 0 ∧ s.seconds = 0 := by
  obtain ⟨h1, h2, _, _⟩ := h
  unfold tickAuto at hflip
  split_ifs at hflip with hs hm
  · simp at hflip
  · simp at hflip
  · omega

/-! ## Claims -/

/-- C1 (counterexample). In the `src/components/PomodoroTimer.tsx` revision
of the tick effect, a running work session at 0:00 does NOT get
`running = false` on completion: the updater returns
`isActive: true` ("Continue running for next session"), so the claim that
tick at zero "sets running to false" is false on this revision at the
concrete state 0:00 / running / work / 25-minute sessions / 5-minute
breaks. -/
theorem tickAuto_keeps_running_at_zero :
    ¬ ((tickAuto
        { minutes := 0, seconds := 0, isActive := true, isSession := true
          sessionLength := 25, breakLength := 5 }).isActive = false) := by
  decide

/-- C1 (amended). At tick time with `remainingSeconds = 0` while running,
both revisions flip the session kind and reset `remainingSeconds` to the
new mode's configured duration; the `src/unnamed/part_004` revision
additionally sets `running = false` (the next session waits for an
explicit resume), while the `src/components/PomodoroTimer.tsx` revision
leaves `running = true` (the next session auto-continues). -/
theorem tick_at_zero_flips_and_stops (s : TimerState)
    (hrun : s.isActive = true) (hm : s.minutes = 0) (hsec : s.seconds = 0) :
    ((tick s).isSession = !s.isSession ∧ (tick s).isActive = false ∧
      remainingSeconds (tick s) =
        (if s.isSession then breakDurationSeconds s else workDurationSeconds s)) ∧
    ((tickAuto s).isSession = !s.isSession ∧ (tickAuto s).isActive = true ∧
      remainingSeconds (tickAuto s) =
        (if s.isSession then breakDurationSeconds s else workDurationSeconds s)) := by
  unfold tick tickAuto remainingSeconds breakDurationSeconds workDurationSeconds
  rw [hm, hsec]
  simp only [lt_irrefl, if_neg (lt_irrefl 0)]
  cases hses : s.isSession <;> simp

/-- C1 (witness): instantiation of `tick_at_zero_flips_and_stops` at a
concrete running work session at 0:00. -/
theorem tick_at_zero_flips_and_stops_witness :
    (tick { minutes := 0, seconds := 0, isActive := true, isSession := true
            sessionLength := 25, breakLength := 5 }).isActive = false ∧
    (tickAuto { minutes := 0, seconds := 0, isActive := true, isSession := true
                sessionLength := 25, breakLength := 5 }).isActive = true := by
  have h := tick_at_zero_flips_and_stops
    { minutes := 0, seconds := 0, isActive := true, isSession := true
      sessionLength := 25, breakLength := 5 } rfl rfl rfl
  exact ⟨h.1.2.1, h.2.2.1⟩

/-- C8. `pause()` (one `toggleTimer` from Running) followed immediately by
`start()` (a second `toggleTimer`) with no ticks in between restores the
exact original state: `remainingSeconds` (the minutes/seconds pair), the
session kind and both configured durations are unchanged, and the first
toggle indeed pauses. -/
theorem pause_resume_round_trip (s : TimerState) (hrun : s.isActive = true) :
    toggleTimer (toggleTimer s) = s ∧
    (toggleTimer s).isActive = false ∧
    remainingSeconds (toggleTimer (toggleTimer s)) = remainingSeconds s ∧
    (toggleTimer (toggleTimer s)).minutes = s.minutes ∧
    (toggleTimer (toggleTimer s)).seconds = s.seconds ∧
    (toggleTimer (toggleTimer s)).isSession = s.isSession ∧
    (toggleTimer (toggleTimer s)).sessionLength = s.sessionLength ∧
    (toggleTimer (toggleTimer s)).breakLength = s.breakLength := by
  have hid : toggleTimer (toggleTimer s) = s := by
    cases s
    simp [toggleTimer]
  refine ⟨hid, ?_, by rw [hid], by rw [hid], by rw [hid], by rw [hid], by rw [hid], by rw [hid]⟩
  simp [toggleTimer, hrun]

/-- C8 (witness): instantiation of `pause_resume_round_trip` at a concrete
mid-countdown running state. -/
theorem pause_resume_round_trip_witness :
    toggleTimer (toggleTimer
      { minutes := 12, seconds := 34, isActive := true, isSession := true
        sessionLength := 25, breakLength := 5 }) =
      { minutes := 12, seconds := 34, isActive := true, isSession := true
        sessionLength := 25, breakLength := 5 } :=
  (pause_resume_round_trip
    { minutes := 12, seconds := 34, isActive := true, isSession := true
      sessionLength := 25, breakLength := 5 } rfl).1

/-- C9. Under the numeric invariant (which the initial state satisfies and
which `toggleTimer` and `resetTimer` also preserve, so every reachable
state satisfies it), any number of ticks of either revision keeps minutes
and seconds non-negative — the countdown never goes negative — and a
single tick of either revision changes the session kind only when the
state was exactly 0:00, so at most one mode flip occurs per tick. -/
theorem countdown_nonneg_single_flip :
    TimerInv initialTimer ∧
    (∀ (s : TimerState) (n : Nat), TimerInv s →
        TimerInv (tick^[n] s) ∧ 0 ≤ remainingSeconds (tick^[n] s) ∧
        TimerInv (tickAuto^[n] s) ∧ 0 ≤ remainingSeconds (tickAuto^[n] s)) ∧
    (∀ s : TimerState, TimerInv s → (tick s).isSession ≠ s.isSession →
        s.minutes = 0 ∧ s.seconds = 0) ∧
    (∀ s : TimerState, TimerInv s → (tickAuto s).isSession ≠ s.isSession →
        s.minutes = 0 ∧ s.seconds = 0) ∧
    (∀ s : TimerState, TimerInv s →
        TimerInv (toggleTimer s) ∧ TimerInv (resetTimer s)) := by
  refine ⟨by decide, ?_, ?_, ?_, ?_⟩
  · intro s n h
    exact ⟨tick_iterate_inv n h, remainingSeconds_nonneg (tick_iterate_inv n h),
      tickAuto_iterate_inv n h, remainingSeconds_nonneg (tickAuto_iterate_inv n h)⟩
  · intro s h hflip
    exact tick_flip_only_at_zero h hflip
  · intro s h hflip
    exact tickAuto_flip_only_at_zero h hflip
  · intro s h
    obtain ⟨h1, h2, h3, h4⟩ := h
    refine ⟨⟨h1, h2, h3, h4⟩, ⟨?_, ?_, h3, h4⟩⟩
    · show (0:Int) ≤ if s.isSession then s.sessionLength else s.breakLength
      split_ifs <;> assumption
    · show (0:Int) ≤ 0
      exact le_refl 0

/-- C9 (witness): instantiation of `countdown_nonneg_single_flip` after
three ticks from the initial state. -/
theorem countdown_nonneg_single_flip_witness :
    TimerInv (tick^[3] initialTimer) ∧ 0 ≤ remainingSeconds (tick^[3] initialTimer) :=
  ⟨(countdown_nonneg_single_flip.2.1 initialTimer 3 (by decide)).1,
   (countdown_nonneg_single_flip.2.1 initialTimer 3 (by decide)).2.1⟩

/-- C10. The mute toggle is not an involution: from any positive volume,
one application of `handleVolumeToggle` yields 0, a second application
yields the fixed value 30 (not the original volume unless it was 30). -/
theorem volume_toggle_not_involutive (v : Int) (hv : 0 < v) :
    handleVolumeToggle v = 0 ∧
    handleVolumeToggle (handleVolumeToggle v) = 30 ∧
    (v ≠ 30 → handleVolumeToggle (handleVolumeToggle v) ≠ v) := by
  have h0 : handleVolumeToggle v = 0 := by
    unfold handleVolumeToggle
    simp [hv]
  have h30 : handleVolumeToggle (handleVolumeToggle v) = 30 := by
    rw [h0]
    unfold handleVolumeToggle
    norm_num
  exact ⟨h0, h30, fun hne => by rw [h30]; exact fun hc => hne hc.symm⟩

/-- C10 (witness): instantiation of `volume_toggle_not_involutive` at
volume 50. -/
theorem volume_toggle_not_involutive_witness :
    handleVolumeToggle (50 : Int) = 0 ∧
    handleVolumeToggle (handleVolumeToggle (50 : Int)) = 30 := by
  have h := volume_toggle_not_involutive 50 (by norm_num)
  exact ⟨h.1, h.2.1⟩

/-- C2 (counterexample). Starting from a freshly rendered hook state with
`count = 4`, two `incrementStreak` calls with no re-render in between:
the second call still returns 5 — the render-captured `streak.count + 1` —
while the state that gets persisted has `count = 6`, so the returned value
is a stale pre-increment snapshot and differs from the persisted count. -/
theorem incrementStreak_stale_on_repeat :
    (incrementStreak 7 (incrementStreak 7
        ⟨⟨4, 6, 10⟩, ⟨4, 6, 10⟩⟩).2).1 = 5 ∧
    (incrementStreak 7 (incrementStreak 7
        ⟨⟨4, 6, 10⟩, ⟨4, 6, 10⟩⟩).2).2.stored.count = 6 ∧
    (incrementStreak 7 (incrementStreak 7
        ⟨⟨4, 6, 10⟩, ⟨4, 6, 10⟩⟩).2).1 ≠
      (incrementStreak 7 (incrementStreak 7
        ⟨⟨4, 6, 10⟩, ⟨4, 6, 10⟩⟩).2).2.stored.count := by
  decide

/-- C2 (amended). When the render-captured snapshot agrees with the actual
state (at most one pending increment per render), `incrementStreak`
increases `count` and `totalSessions` by exactly one, sets `lastUpdate` to
today, and synchronously returns the post-increment count — the very value
that is persisted; in particular it returns 5 from `count = 4`. A second
call before the next render, however, returns a stale snapshot value
(see the counterexample). -/
theorem incrementStreak_correct_when_synced (today : Int) (h : HookState)
    (hsync : h.snapshot = h.stored) :
    (incrementStreak today h).1 = ((incrementStreak today h).2).stored.count ∧
    ((incrementStreak today h).2).stored.count = h.stored.count + 1 ∧
    ((incrementStreak today h).2).stored.totalSessions = h.stored.totalSessions + 1 ∧
    ((incrementStreak today h).2).stored.lastUpdate = today ∧
    (h.stored.count = 4 → (incrementStreak today h).1 = 5) := by
  unfold incrementStreak
  refine ⟨?_, rfl, rfl, rfl, ?_⟩
  · show h.snapshot.count + 1 = h.stored.count + 1
    rw [hsync]
  · intro h4
    show h.snapshot.count + 1 = 5
    rw [hsync, h4]
    norm_num

/-- C2 (witness): instantiation of `incrementStreak_correct_when_synced`
at a synced hook state with `count = 4`. -/
theorem incrementStreak_correct_when_synced_witness :
    (incrementStreak 7 ⟨⟨4, 6, 10⟩, ⟨4, 6, 10⟩⟩).1 = 5 ∧
    (incrementStreak 7 ⟨⟨4, 6, 10⟩, ⟨4, 6, 10⟩⟩).2.stored.count = 5 := by
  have h := incrementStreak_correct_when_synced 7 ⟨⟨4, 6, 10⟩, ⟨4, 6, 10⟩⟩ rfl
  exact ⟨h.2.2.2.2 rfl, by rw [← h.1]; exact h.2.2.2.2 rfl⟩

/-- C3. The load-time daily-gap rule on a successfully parsed record:
a record dated today is used unchanged; a record dated exactly yesterday
keeps its count (and its `totalSessions`) and only has its date advanced
to today; a record two or more days old has its count reset to 0 with
`totalSessions` preserved and the date set to today. -/
theorem loadStreak_daily_gap (today : Int) (data : StreakData) :
    (data.lastUpdate = today → (loadStreak today (.record data)).1 = data) ∧
    (data.lastUpdate = today - 1 →
      (loadStreak today (.record data)).1 = { data with lastUpdate := today }) ∧
    (data.lastUpdate ≤ today - 2 →
      (loadStreak today (.record data)).1.count = 0 ∧
      (loadStreak today (.record data)).1.totalSessions = data.totalSessions ∧
      (loadStreak today (.record data)).1.lastUpdate = today) := by
  unfold loadStreak loadAdjust
  refine ⟨fun ht => ?_, fun hy => ?_, fun hold => ?_⟩
  · simp [ht]
  · have hne : data.lastUpdate ≠ today := by omega
    simp [hne, hy]
  · have hne : data.lastUpdate ≠ today := by omega
    have hne2 : data.lastUpdate ≠ today - 1 := by omega
    simp [hne, hne2]

/-- C3 (witness): instantiation of `loadStreak_daily_gap` covering all
three branches at concrete dates (day index 10 as "today"). -/
theorem loadStreak_daily_gap_witness :
    (loadStreak 10 (.record ⟨3, 10, 7⟩)).1 = ⟨3, 10, 7⟩ ∧
    (loadStreak 10 (.record ⟨3, 9, 7⟩)).1 = ⟨3, 10, 7⟩ ∧
    (loadStreak 10 (.record ⟨3, 8, 7⟩)).1.count = 0 ∧
    (loadStreak 10 (.record ⟨3, 8, 7⟩)).1.totalSessions = 7 := by
  refine ⟨(loadStreak_daily_gap 10 ⟨3, 10, 7⟩).1 rfl, ?_, ?_, ?_⟩
  · exact (loadStreak_daily_gap 10 ⟨3, 9, 7⟩).2.1 rfl
  · exact ((loadStreak_daily_gap 10 ⟨3, 8, 7⟩).2.2 (by norm_num)).1
  · exact ((loadStreak_daily_gap 10 ⟨3, 8, 7⟩).2.2 (by norm_num)).2.1

/-- C6. The load effect is a total function of the stored value — no input
makes it throw — and on data that `JSON.parse` rejects it substitutes the
fresh zero record (count 0, totalSessions 0, dated today) and flags the
logged anomaly (`console.error` branch). -/
theorem loadStreak_malformed_safe (today : Int) :
    loadStreak today .malformed = (freshStreak today, true) ∧
    (loadStreak today .malformed).1.count = 0 ∧
    (loadStreak today .malformed).1.totalSessions = 0 ∧
    (loadStreak today .malformed).1.lastUpdate = today := by
  refine ⟨rfl, rfl, rfl, rfl⟩

/-! ### Stall-timer helper lemmas -/

/-- With no pending stall timer, letting the clock run changes nothing. -/
lemma advanceTo_none {t : Nat} {s : MediaState} (h : s.stallDeadline = none) :
    advanceTo t s = s := by
  unfold advanceTo
  rw [h]

/-- A pending stall timer whose deadline has not been reached does not fire. -/
lemma advanceTo_not_due {t d : Nat} {s : MediaState} (h : s.stallDeadline = some d)
    (ht : t < d) : advanceTo t s = s := by
  unfold advanceTo
  rw [h]
  simp [Nat.not_le.mpr ht]

/-- A pending stall timer fires once its deadline is reached: the iframe
key increments (one forced reload) and the timer slot clears. -/
lemma advanceTo_due {t d : Nat} {s : MediaState} (h : s.stallDeadline = some d)
    (ht : d ≤ t) :
    advanceTo t s = { s with stallDeadline := none, iframeKey := s.iframeKey + 1 } := by
  unfold advanceTo
  rw [h]
  simp [ht]

/-- While a stall timer is pending, any non-playing state change neither
re-arms nor cancels it and performs no reload: the handler only records
the new player state. -/
lemma handleStateChange_pending {now d : Nat} {c : PlayerCode} {s : MediaState}
    (h : s.stallDeadline = some d) (hc : c ≠ PlayerCode.playing) :
    (handleStateChange now c s).stallDeadline = some d ∧
    (handleStateChange now c s).iframeKey = s.iframeKey := by
  cases c <;> simp [handleStateChange, codeInfo, h] at hc ⊢

/-- Running a trace of non-playing events whose timestamps all precede the
pending deadline, with the clock ending at or past the deadline, fires the
stall timer exactly once. -/
lemma runTrace_pending_fires (evs : List (Nat × PlayerCode)) (d endTime : Nat)
    (hend : d ≤ endTime) :
    ∀ s : MediaState, s.stallDeadline = some d →
    (∀ p ∈ evs, p.1 < d ∧ p.2 ≠ PlayerCode.playing) →
    (runTrace s evs endTime).iframeKey = s.iframeKey + 1 ∧
    (runTrace s evs endTime).stallDeadline = none := by
  induction evs with
  | nil =>
      intro s hs _
      unfold runTrace
      rw [advanceTo_due hs hend]
      exact ⟨rfl, rfl⟩
  | cons p rest ih =>
      intro s hs hall
      obtain ⟨hp, hrest⟩ := List.forall_mem_cons.mp hall
      obtain ⟨t, c⟩ := p
      unfold runTrace
      rw [advanceTo_not_due hs hp.1]
      obtain ⟨hd, hk⟩ := handleStateChange_pending hs hp.2
      obtain ⟨ih1, ih2⟩ := ih (handleStateChange t c s) hd hrest
      rw [hk] at ih1
      exact ⟨ih1, ih2⟩

/-- A buffering or unstarted event received while no stall timer is
pending arms a one-shot timer with deadline three seconds out and performs
no reload. -/
lemma handleStateChange_arms {now : Nat} {c : PlayerCode} {s : MediaState}
    (h : s.stallDeadline = none)
    (hc : c = PlayerCode.buffering ∨ c = PlayerCode.unstarted) :
    (handleStateChange now c s).stallDeadline = some (now + 3) ∧
    (handleStateChange now c s).iframeKey = s.iframeKey := by
  rcases hc with hc | hc <;> subst hc <;>
    simp [handleStateChange, codeInfo, h]

/-- C4. One-shot stall recovery. (a) From the mount state, a
`stateChange(Buffering)` or `stateChange(Unstarted)` event at time `t0`
arms a 3-second timer, and if every further event strictly before
`t0 + 3` is a non-Playing state change, exactly one reload has been issued
once the clock reaches `t0 + 3` and no timer is left pending — further
Buffering events inside the window do not stack a second reload. (b) If a
`stateChange(Playing)` arrives before the 3 seconds elapse, the pending
reload is cancelled and the reload count stays 0 forever after. -/
theorem stall_timer_one_shot :
    (∀ (t0 : Nat) (c0 : PlayerCode) (evs : List (Nat × PlayerCode)),
        (c0 = PlayerCode.buffering ∨ c0 = PlayerCode.unstarted) →
        (∀ p ∈ evs, p.1 < t0 + 3 ∧ p.2 ≠ PlayerCode.playing) →
        (runTrace initialMedia ((t0, c0) :: evs) (t0 + 3)).iframeKey = 1 ∧
        (runTrace initialMedia ((t0, c0) :: evs) (t0 + 3)).stallDeadline = none) ∧
    (∀ (t0 t1 endTime : Nat), t1 < t0 + 3 →
        (runTrace initialMedia
            [(t0, PlayerCode.buffering), (t1, PlayerCode.playing)] endTime).iframeKey = 0 ∧
        (runTrace initialMedia
            [(t0, PlayerCode.buffering), (t1, PlayerCode.playing)] endTime).stallDeadline
          = none) := by
  constructor
  · intro t0 c0 evs hc0 hall
    have h0 : (advanceTo t0 initialMedia) = initialMedia := advanceTo_none rfl
    show (runTrace (handleStateChange t0 c0 (advanceTo t0 initialMedia)) evs (t0 + 3)).iframeKey = 1 ∧ _
    rw [h0]
    obtain ⟨hd, hk⟩ := @handleStateChange_arms t0 c0 initialMedia rfl hc0
    obtain ⟨h1, h2⟩ := runTrace_pending_fires evs (t0 + 3) (t0 + 3) (le_refl _)
      (handleStateChange t0 c0 initialMedia) hd hall
    rw [hk] at h1
    exact ⟨h1, h2⟩
  · intro t0 t1 endTime ht
    have hnot : ¬ (t0 + 3 ≤ t1) := by omega
    simp [runTrace, handleStateChange, advanceTo, codeInfo, initialMedia, hnot]

/-- C4 (witness): instantiation of `stall_timer_one_shot` — a buffering
event at time 5 followed by a paused event at time 6 produces exactly one
reload by time 8, while a playing event at time 6 cancels the reload. -/
theorem stall_timer_one_shot_witness :
    (runTrace initialMedia
      [(5, PlayerCode.buffering), (6, PlayerCode.paused)] 8).iframeKey = 1 ∧
    (runTrace initialMedia
      [(5, PlayerCode.buffering), (6, PlayerCode.playing)] 100).iframeKey = 0 := by
  refine ⟨?_, (stall_timer_one_shot.2 5 6 100 (by norm_num)).1⟩
  exact (stall_timer_one_shot.1 5 PlayerCode.buffering
    [(6, PlayerCode.paused)] (Or.inl rfl) (by decide)).1

/-- C5. Volume command ordering in one `playbackInterval` iteration:
at `volumeLevel = 0` the loop posts exactly one mute command and no
set-volume command; at `volumeLevel > 0` with previously known volume 0 it
posts `unMute` strictly before `setVolume(volumeLevel)` (the command list
is in posting order). -/
theorem playback_volume_ordering (volume prevVolume : Int) :
    (volume = 0 →
        playbackTick volume prevVolume = [Command.mute] ∧
        ∀ n : Int, Command.setVolume n ∉ playbackTick volume prevVolume) ∧
    (0 < volume → prevVolume = 0 →
        playbackTick volume prevVolume = [Command.unMute, Command.setVolume volume] ∧
        ∃ i j : Nat, i < j ∧
          (playbackTick volume prevVolume).get? i = some Command.unMute ∧
          (playbackTick volume prevVolume).get? j = some (Command.setVolume volume)) := by
  constructor
  · intro h0
    subst h0
    refine ⟨rfl, ?_⟩
    intro n hn
    simp [playbackTick] at hn
  · intro hpos hprev
    have hne : volume ≠ 0 := by omega
    have heq : playbackTick volume prevVolume
        = [Command.unMute, Command.setVolume volume] := by
      unfold playbackTick
      rw [if_neg hne, hprev]
      simp
    refine ⟨heq, 0, 1, Nat.zero_lt_one, ?_, ?_⟩ <;> rw [heq] <;> rfl

/-- C5 (witness): instantiation of `playback_volume_ordering` at the
spec's 0 → 30 transition and at the muted case. -/
theorem playback_volume_ordering_witness :
    playbackTick 0 25 = [Command.mute] ∧
    playbackTick 30 0 = [Command.unMute, Command.setVolume 30] := by
  exact ⟨((playback_volume_ordering 0 25).1 rfl).1,
    ((playback_volume_ordering 30 0).2 (by norm_num) rfl).1⟩

/-- C7 (counterexample). `setTheme` with an identifier matching no known
theme does not switch to any documented default: it leaves the current
theme untouched. With current theme `blue`, the result is still `blue` —
neither the initial default `red-orange` nor the sync fallback
`emerald` — so the operation does not "fall back to a documented default
theme identifier". -/
theorem setTheme_unknown_no_default :
    setTheme "does-not-exist" blueTheme = blueTheme ∧
    blueTheme ≠ redOrangeTheme ∧ blueTheme ≠ emeraldTheme := by
  refine ⟨rfl, ?_, ?_⟩ <;> decide

/-- C7 (amended). An unknown theme identifier makes `setTheme` keep the
current theme unchanged — the miss is handled without error (a console
warning only), but with no fallback to a default identifier. The documented
`'emerald'` fallback lives one level up, in the `AppContent` theme-sync
effect: when the selected video id misses the `videos` table (or the entry
has an empty theme), the effect passes the default id `'emerald'`, which is
a known theme, to `setTheme`. -/
theorem setTheme_miss_keeps_current :
    (∀ (themeId : String) (cur : Theme),
        themes.find? (fun t => t.id = themeId) = none →
        setTheme themeId cur = cur) ∧
    (∀ (videos : List Video) (sel : String),
        videos.find? (fun v => v.id = sel) = none →
        themeForVideo videos sel = "emerald") ∧
    setTheme "emerald" blueTheme = emeraldTheme ∧
    setTheme "emerald" redOrangeTheme = emeraldTheme := by
  refine ⟨?_, ?_, rfl, rfl⟩
  · intro themeId cur hmiss
    unfold setTheme
    rw [hmiss]
  · intro videos sel hmiss
    unfold themeForVideo
    rw [hmiss]

/-- C7 (witness): instantiation of `setTheme_miss_keeps_current` at a
concrete unknown id and at a video id absent from an empty video table. -/
theorem setTheme_miss_keeps_current_witness :
    setTheme "no-such-theme" blueTheme = blueTheme ∧
    themeForVideo [] "OO2kPK5-qno" = "emerald" := by
  exact ⟨setTheme_miss_keeps_current.1 "no-such-theme" blueTheme (by decide),
    setTheme_miss_keeps_current.2.1 [] "OO2kPK5-qno" rfl⟩

end TimeTunes
